import Mathlib

/-!
Verification of the in-memory entity-management core (tasks, projects,
categories, tags, notifications) against its natural-language specification.

The Python source is shallowly embedded: entities become structures,
`datetime.now()` becomes an explicit `now : Nat` argument, mutation becomes
state passing, raised exceptions become `Except` errors carrying the
structured `AppException` payload, and the repository's ordered `dict`
becomes an insertion-ordered association list.
-/

/-- Embeds `str.strip()`: removes leading and trailing whitespace. -/
def pyStrip (s : String) : String :=
  String.mk (((s.toList.dropWhile Char.isWhitespace).reverse.dropWhile Char.isWhitespace).reverse)

/-- Embeds `str.lower()` (ASCII case folding, as used by the name scans). -/
def pyLower (s : String) : String :=
  String.mk (s.toList.map Char.toLower)

/-- Embeds `s[n:]`. -/
def pyDrop (s : String) (n : Nat) : String :=
  String.mk (s.toList.drop n)

/-- Embeds `str.startswith(pre)`. -/
def pyStartsWith (s pre : String) : Bool :=
  pre.toList.isPrefixOf s.toList

/-- Embeds `c in s` for a character and a string. -/
def pyContainsChar (s : String) (c : Char) : Bool :=
  s.toList.contains c

/-- Embeds `str.isalnum()`: nonempty and every character alphanumeric. -/
def pyIsAlnum (s : String) : Bool :=
  s.length != 0 && s.toList.all Char.isAlphanum

/-- A single-quote character, for building the f-string messages of the source. -/
def singleQuote : String := String.mk [Char.ofNat 39]

/-- Wraps a string in single quotes, as the f-strings of the source do. -/
def quoted (s : String) : String := singleQuote ++ s ++ singleQuote

/-- Embeds `app.common.exceptions.AppException`: structured failure payload
`{error_code, message, details}`; `details` is modelled as a string-to-string
association list (the source only ever stores string values). -/
structure AppException where
  message : String
  error_code : String
  details : List (String × String)
deriving DecidableEq, Repr

/-- Embeds `ValidationError.__init__`: error code VALIDATION_ERROR. -/
def ValidationError (message : String) : AppException :=
  { message := message, error_code := "VALIDATION_ERROR", details := [] }

/-- Embeds `NotFoundError.__init__`: error code NOT_FOUND with
`details = {"resource_type": resource_type}`. -/
def NotFoundError (message : String) (resource_type : String) : AppException :=
  { message := message, error_code := "NOT_FOUND",
    details := [("resource_type", resource_type)] }

/-- Embeds `ConflictError.__init__`: error code CONFLICT. -/
def ConflictError (message : String) (details : List (String × String)) : AppException :=
  { message := message, error_code := "CONFLICT", details := details }

/-- A Python runtime error: either a raised `AppException` or an
`AttributeError` (attribute access on an object that lacks it). -/
inductive PyError where
  | appError (e : AppException)
  | attributeError (msg : String)
deriving DecidableEq, Repr

/-- Embeds `dict.get(k)` on the id-keyed backing map. -/
def dictLookup {α : Type} (l : List (Nat × α)) (k : Nat) : Option α :=
  match l with
  | [] => none
  | p :: rest => if p.1 = k then some p.2 else dictLookup rest k

/-- Embeds `d[k] = v` on an insertion-ordered dict: replaces in place when the
key exists, otherwise appends at the end. -/
def dictInsert {α : Type} (l : List (Nat × α)) (k : Nat) (v : α) : List (Nat × α) :=
  match l with
  | [] => [(k, v)]
  | p :: rest => if p.1 = k then (k, v) :: rest else p :: dictInsert rest k v

/-- Embeds `del d[k]` on an insertion-ordered dict with unique keys. -/
def dictDelete {α : Type} (l : List (Nat × α)) (k : Nat) : List (Nat × α) :=
  match l with
  | [] => []
  | p :: rest => if p.1 = k then rest else p :: dictDelete rest k

/-- Embeds `BaseRepository.__init__`: `_items` (insertion-ordered map from id
to entity) and `_next_id` starting at 1. -/
structure Repository (α : Type) where
  items : List (Nat × α)
  next_id : Nat
deriving DecidableEq, Repr

/-- The state `BaseRepository.__init__` produces. -/
def Repository.init {α : Type} : Repository α :=
  { items := [], next_id := 1 }

/-- Embeds `BaseRepository.get`. -/
def Repository.get {α : Type} (r : Repository α) (item_id : Nat) : Option α :=
  dictLookup r.items item_id

/-- Embeds `BaseRepository.get_or_raise`. -/
def Repository.get_or_raise {α : Type} (r : Repository α) (item_id : Nat)
    (resource_type : String) : Except AppException α :=
  match r.get item_id with
  | some item => Except.ok item
  | none => Except.error (NotFoundError (resource_type ++ " not found") resource_type)

/-- Embeds `BaseRepository.get_all`. -/
def Repository.get_all {α : Type} (r : Repository α) : List α :=
  r.items.map Prod.snd

/-- Embeds `BaseRepository.update`: replace only when the id exists. -/
def Repository.update {α : Type} (r : Repository α) (item_id : Nat) (item : α) :
    Repository α × Bool :=
  if (dictLookup r.items item_id).isSome then
    ({ r with items := dictInsert r.items item_id item }, true)
  else (r, false)

/-- Embeds `BaseRepository.delete`: remove only when the id exists. -/
def Repository.delete {α : Type} (r : Repository α) (item_id : Nat) :
    Repository α × Bool :=
  if (dictLookup r.items item_id).isSome then
    ({ r with items := dictDelete r.items item_id }, true)
  else (r, false)

/-- Embeds `BaseRepository.count`. -/
def Repository.count {α : Type} (r : Repository α) : Nat :=
  r.items.length

/-- Embeds `BaseRepository.get_next_id`: returns the counter and increments it. -/
def Repository.get_next_id {α : Type} (r : Repository α) : Nat × Repository α :=
  (r.next_id, { r with next_id := r.next_id + 1 })

/-- The store step `self._items[key] = entity` inside a `create`. -/
def Repository.store {α : Type} (r : Repository α) (k : Nat) (v : α) : Repository α :=
  { r with items := dictInsert r.items k v }

/-- Embeds the `Tag` model (`app/models/tag.py`): id, name, usage counter,
timestamps. `usage_count` is a Python int, so it is embedded as `Int`. -/
structure Tag where
  id : Nat
  name : String
  usage_count : Int
  created_at : Nat
  updated_at : Nat
deriving DecidableEq, Repr

/-- Embeds `Tag.__init__` at time `now` (with `created_at` defaulting to now). -/
def Tag.init (tag_id : Nat) (name : String) (created_at : Option Nat) (now : Nat) : Tag :=
  { id := tag_id, name := name, usage_count := 0,
    created_at := created_at.getD now, updated_at := now }

/-- Embeds `Tag.validate`. -/
def Tag.validate (t : Tag) : Bool × Option String :=
  if t.name == "" || (pyStrip t.name).length == 0 then
    (false, some "Tag name is required")
  else if t.name.length > 30 then
    (false, some "Tag name cannot exceed 30 characters")
  else if !(pyIsAlnum t.name) then
    (false, some "Tag name must be alphanumeric")
  else (true, none)

/-- Embeds `Tag.increment_usage` at time `now`. -/
def Tag.increment_usage (t : Tag) (now : Nat) : Tag :=
  { t with usage_count := t.usage_count + 1, updated_at := now }

/-- Embeds `Tag.decrement_usage` at time `now`: only decrements (and touches
`updated_at`) when the counter is strictly positive. -/
def Tag.decrement_usage (t : Tag) (now : Nat) : Tag :=
  if t.usage_count > 0 then
    { t with usage_count := t.usage_count - 1, updated_at := now }
  else t

/-- Embeds `TagRepository.create` (`app/services/tag_service.py`): allocate id,
construct, validate, case-insensitive duplicate scan (raising
`ValidationError`, as the source does), then store. The returned repository is
the post-call state of `self` (the id counter stays advanced on failure). -/
def TagRepository.create (r : Repository Tag) (name : String) (now : Nat) :
    Repository Tag × Except AppException Tag :=
  let p := r.get_next_id
  let r1 := p.2
  let tag := Tag.init p.1 name none now
  let v := tag.validate
  if v.1 = false then
    (r1, Except.error (ValidationError (v.2.getD "")))
  else if r1.items.any (fun q => pyLower q.2.name == pyLower name) then
    (r1, Except.error (ValidationError ("Tag " ++ quoted name ++ " already exists")))
  else
    (r1.store tag.id tag, Except.ok tag)

/-- Embeds the `Category` model (`app/models/category.py`). -/
structure Category where
  id : Nat
  name : String
  color : String
  description : String
  task_count : Nat
  created_at : Nat
  updated_at : Nat
deriving DecidableEq, Repr

/-- Embeds `Category.__init__` at time `now`. -/
def Category.init (category_id : Nat) (name color description : String)
    (created_at : Option Nat) (now : Nat) : Category :=
  { id := category_id, name := name, color := color, description := description,
    task_count := 0, created_at := created_at.getD now, updated_at := now }

/-- Embeds `Category._is_valid_hex_color`. -/
def Category.is_valid_hex_color (color : String) : Bool :=
  if !(pyStartsWith color "#") then false
  else
    let hex_part := pyDrop color 1
    hex_part.length == 6 &&
      hex_part.toList.all (fun c => pyContainsChar "0123456789abcdefABCDEF" c)

/-- Embeds `Category.validate`. -/
def Category.validate (c : Category) : Bool × Option String :=
  if c.name == "" || (pyStrip c.name).length == 0 then
    (false, some "Category name is required")
  else if c.name.length > 50 then
    (false, some "Category name cannot exceed 50 characters")
  else if !(Category.is_valid_hex_color c.color) then
    (false, some "Invalid hex color format")
  else (true, none)

/-- Embeds `CategoryRepository.create` (`app/services/category_service.py`):
allocate id, construct, validate, case-insensitive duplicate scan (raising
`ValidationError`, as the source does), then store. -/
def CategoryRepository.create (r : Repository Category)
    (name color description : String) (now : Nat) :
    Repository Category × Except AppException Category :=
  let p := r.get_next_id
  let r1 := p.2
  let category := Category.init p.1 name color description none now
  let v := category.validate
  if v.1 = false then
    (r1, Except.error (ValidationError (v.2.getD "")))
  else if r1.items.any (fun q => pyLower q.2.name == pyLower name) then
    (r1, Except.error (ValidationError ("Category " ++ quoted name ++ " already exists")))
  else
    (r1.store category.id category, Except.ok category)

/-- Embeds `TaskStatus` (`app/models/task.py`). -/
inductive TaskStatus where
  | todo
  | in_progress
  | done
  | blocked
deriving DecidableEq, Repr

/-- Embeds `TaskPriority` (`app/models/task.py`). -/
inductive TaskPriority where
  | low
  | medium
  | high
  | critical
deriving DecidableEq, Repr

/-- Embeds the `Task` model (`app/models/task.py`). Timestamps are abstract
instants (`Nat`); `due_date`, `assignee_id` and `completed_at` are optional. -/
structure App.Task where
  id : Nat
  title : String
  description : String
  project_id : Nat
  status : TaskStatus
  priority : TaskPriority
  due_date : Option Nat
  assignee_id : Option Int
  tags : List String
  completed_at : Option Nat
  created_at : Nat
  updated_at : Nat
deriving DecidableEq, Repr

/-- Embeds `Task.__init__` at time `now` (`completed_at` starts `None`;
`tags or []` collapses an absent list to the empty list). -/
def App.Task.init (task_id : Nat) (title description : String) (project_id : Nat)
    (status : TaskStatus) (priority : TaskPriority) (due_date : Option Nat)
    (assignee_id : Option Int) (tags : List String) (created_at : Option Nat)
    (now : Nat) : App.Task :=
  { id := task_id, title := title, description := description,
    project_id := project_id, status := status, priority := priority,
    due_date := due_date, assignee_id := assignee_id, tags := tags,
    completed_at := none, created_at := created_at.getD now, updated_at := now }

/-- Embeds `Task.validate`. -/
def App.Task.validate (t : App.Task) : Bool × Option String :=
  if t.title == "" || (pyStrip t.title).length == 0 then
    (false, some "Title is required")
  else if t.title.length > 255 then
    (false, some "Title cannot exceed 255 characters")
  else if t.description.length > 2000 then
    (false, some "Description cannot exceed 2000 characters")
  else (true, none)

/-- Embeds `Task.mark_as_done` at time `now`. -/
def App.Task.mark_as_done (t : App.Task) (now : Nat) : App.Task :=
  { t with status := TaskStatus.done, completed_at := some now, updated_at := now }

/-- Embeds `Task.mark_as_in_progress` at time `now`. -/
def App.Task.mark_as_in_progress (t : App.Task) (now : Nat) : App.Task :=
  { t with status := TaskStatus.in_progress, updated_at := now }

/-- Embeds `Task.is_overdue` evaluated at time `now`: a `datetime` is always
truthy, so `if self.due_date` is a `None` test, and the comparison is
`datetime.now() > self.due_date`. -/
def App.Task.is_overdue (t : App.Task) (now : Nat) : Bool :=
  match t.due_date with
  | some d => if t.status ≠ TaskStatus.done then decide (now > d) else false
  | none => false

/-- Embeds `TaskRepository.create` (`app/services/task_service.py`). After a
successful `validate`, the source executes `self._items[task.task_id] = task`;
`Task` objects have no attribute `task_id` (the constructor parameter is bound
to `self.id` by `BaseModel.__init__`), so that store line raises
`AttributeError` and nothing is inserted. -/
def TaskRepository.create (r : Repository App.Task) (title description : String)
    (project_id : Nat) (status : TaskStatus) (priority : TaskPriority)
    (now : Nat) : Repository App.Task × Except PyError App.Task :=
  let p := r.get_next_id
  let r1 := p.2
  let task := App.Task.init p.1 title description project_id status priority
    none none [] none now
  let v := task.validate
  if v.1 = false then
    (r1, Except.error (PyError.appError (ValidationError (v.2.getD ""))))
  else
    (r1, Except.error (PyError.attributeError
      "Task object has no attribute task_id"))

/-- Embeds `ProjectStatus` (`app/models/project.py`). -/
inductive ProjectStatus where
  | planning
  | active
  | on_hold
  | completed
  | archived
deriving DecidableEq, Repr

/-- Embeds the `Project` model (`app/models/project.py`). `owner_id` is a
Python int (default 0), embedded as `Int`. -/
structure Project where
  id : Nat
  name : String
  description : String
  owner_id : Int
  status : ProjectStatus
  members : List Int
  task_count : Nat
  completed_task_count : Nat
  created_at : Nat
  updated_at : Nat
deriving DecidableEq, Repr

/-- Embeds `Project.__init__` at time `now`: `members` is
`[owner_id] if owner_id else []`, so a falsy (zero) owner id yields an empty
member list. -/
def Project.init (project_id : Nat) (name description : String) (owner_id : Int)
    (status : ProjectStatus) (created_at : Option Nat) (now : Nat) : Project :=
  { id := project_id, name := name, description := description,
    owner_id := owner_id, status := status,
    members := if owner_id ≠ 0 then [owner_id] else [],
    task_count := 0, completed_task_count := 0,
    created_at := created_at.getD now, updated_at := now }

/-- Embeds `Project.validate`. -/
def Project.validate (p : Project) : Bool × Option String :=
  if p.name == "" || (pyStrip p.name).length == 0 then
    (false, some "Project name is required")
  else if p.name.length > 100 then
    (false, some "Project name cannot exceed 100 characters")
  else if p.description.length > 1000 then
    (false, some "Description cannot exceed 1000 characters")
  else (true, none)

/-- Embeds `Project.add_member` at time `now`: appends only when the user is
not yet a member, returning whether a change occurred. -/
def Project.add_member (p : Project) (user_id : Int) (now : Nat) : Project × Bool :=
  if user_id ∉ p.members then
    ({ p with members := p.members ++ [user_id], updated_at := now }, true)
  else (p, false)

/-- Embeds `Project.remove_member` at time `now`: removes (first occurrence,
as `list.remove` does) only when the user is not the owner and is a member. -/
def Project.remove_member (p : Project) (user_id : Int) (now : Nat) : Project × Bool :=
  if user_id ≠ p.owner_id ∧ user_id ∈ p.members then
    ({ p with members := p.members.erase user_id, updated_at := now }, true)
  else (p, false)

/-- Embeds `Project.activate` at time `now`. -/
def Project.activate (p : Project) (now : Nat) : Project :=
  { p with status := ProjectStatus.active, updated_at := now }

/-- Embeds `Project.archive` at time `now`. -/
def Project.archive (p : Project) (now : Nat) : Project :=
  { p with status := ProjectStatus.archived, updated_at := now }

/-- Embeds `NotificationStatus` (`app/models/notification.py`). -/
inductive NotificationStatus where
  | unread
  | read
  | archived
deriving DecidableEq, Repr

/-- Embeds `NotificationType` (`app/models/notification.py`). -/
inductive NotificationType where
  | task_assigned
  | task_completed
  | task_due_soon
  | project_updated
  | comment_added
deriving DecidableEq, Repr

/-- Embeds the `Notification` model (`app/models/notification.py`). -/
structure Notification where
  id : Nat
  user_id : Int
  message : String
  notification_type : NotificationType
  status : NotificationStatus
  related_entity_id : Option Int
  related_entity_type : Option String
  created_at : Nat
  updated_at : Nat
deriving DecidableEq, Repr

/-- Embeds `Notification.mark_as_read` at time `now`: sets status to read and
touches `updated_at`, unconditionally. -/
def Notification.mark_as_read (n : Notification) (now : Nat) : Notification :=
  { n with status := NotificationStatus.read, updated_at := now }

/-- Embeds `Notification.archive` at time `now`. -/
def Notification.archive (n : Notification) (now : Nat) : Notification :=
  { n with status := NotificationStatus.archived, updated_at := now }

/-- A repository operation on a `TagRepository`, used to model arbitrary
sequences of creates, updates and deletes. -/
inductive TagOp where
  | create (name : String) (now : Nat)
  | update (item_id : Nat) (t : Tag)
  | delete (item_id : Nat)

/-- One operation applied to a `TagRepository`, paired with the list of ids the
operation caused `get_next_id` to issue (`create` always allocates exactly one
id before validating; `update` and `delete` allocate none). -/
def TagRepository.step (r : Repository Tag) : TagOp → Repository Tag × List Nat
  | TagOp.create name now => ((TagRepository.create r name now).1, [r.next_id])
  | TagOp.update item_id t => ((r.update item_id t).1, [])
  | TagOp.delete item_id => ((r.delete item_id).1, [])

/-- Runs a sequence of repository operations, collecting every issued id in
order of issuance. -/
def TagRepository.run (r : Repository Tag) : List TagOp → Repository Tag × List Nat
  | [] => (r, [])
  | op :: ops =>
    let s := TagRepository.step r op
    let rest := TagRepository.run s.1 ops
    (rest.1, s.2 ++ rest.2)

/-- A membership operation on a `Project`. -/
inductive ProjectMemberOp where
  | add (user_id : Int) (now : Nat)
  | remove (user_id : Int) (now : Nat)

/-- Applies one membership operation (discarding the boolean result). -/
def Project.applyMemberOp (p : Project) : ProjectMemberOp → Project
  | ProjectMemberOp.add user_id now => (p.add_member user_id now).1
  | ProjectMemberOp.remove user_id now => (p.remove_member user_id now).1

/-- A usage-counter operation on a `Tag`. -/
inductive TagUsageOp where
  | inc (now : Nat)
  | dec (now : Nat)

/-- Applies one usage-counter operation. -/
def Tag.applyUsageOp (t : Tag) : TagUsageOp → Tag
  | TagUsageOp.inc now => t.increment_usage now
  | TagUsageOp.dec now => t.decrement_usage now

/-! ### Helper lemmas about the backing map and the id counter -/

theorem dictLookup_insert_ne {α : Type} (l : List (Nat × α)) (k j : Nat) (v : α)
    (h : j ≠ k) : dictLookup (dictInsert l k v) j = dictLookup l j := by
  induction l with
  | nil =>
    simp only [dictInsert, dictLookup]
    rw [if_neg (fun hkj => h hkj.symm)]
  | cons p rest ih =>
    by_cases hp : p.1 = k
    · simp only [dictInsert, if_pos hp, dictLookup]
      rw [if_neg (fun hkj => h hkj.symm), if_neg (fun hpj => h (hp ▸ hpj).symm)]
    · simp only [dictInsert, if_neg hp, dictLookup]
      by_cases hpj : p.1 = j
      · rw [if_pos hpj, if_pos hpj]
      · rw [if_neg hpj, if_neg hpj, ih]

theorem dictLookup_delete_none {α : Type} (l : List (Nat × α)) (k j : Nat)
    (h : dictLookup l j = none) : dictLookup (dictDelete l k) j = none := by
  induction l with
  | nil => simp [dictDelete, dictLookup]
  | cons p rest ih =>
    simp only [dictLookup] at h
    by_cases hpj : p.1 = j
    · rw [if_pos hpj] at h; exact absurd h (by simp)
    · rw [if_neg hpj] at h
      by_cases hpk : p.1 = k
      · simpa [dictDelete, if_pos hpk] using h
      · simp only [dictDelete, if_neg hpk, dictLookup, if_neg hpj]
        exact ih h

theorem TagRepository.create_fst_next_id (r : Repository Tag) (name : String)
    (now : Nat) : (TagRepository.create r name now).1.next_id = r.next_id + 1 := by
  unfold TagRepository.create
  dsimp only [Repository.get_next_id, Repository.store]
  split
  · rfl
  · split
    · rfl
    · rfl

theorem TagRepository.create_fst_items (r : Repository Tag) (name : String)
    (now : Nat) :
    (TagRepository.create r name now).1.items = r.items ∨
    (TagRepository.create r name now).1.items =
      dictInsert r.items r.next_id (Tag.init r.next_id name none now) := by
  unfold TagRepository.create
  dsimp only [Repository.get_next_id, Repository.store]
  split
  · exact Or.inl rfl
  · split
    · exact Or.inl rfl
    · exact Or.inr rfl

theorem Repository.update_fst_next_id {α : Type} (r : Repository α) (item_id : Nat)
    (item : α) : (r.update item_id item).1.next_id = r.next_id := by
  unfold Repository.update
  split
  · rfl
  · rfl

theorem Repository.delete_fst_next_id {α : Type} (r : Repository α) (item_id : Nat) :
    (r.delete item_id).1.next_id = r.next_id := by
  unfold Repository.delete
  split
  · rfl
  · rfl

theorem Repository.update_lookup_none {α : Type} (r : Repository α) (item_id j : Nat)
    (item : α) (h : dictLookup r.items j = none) :
    dictLookup (r.update item_id item).1.items j = none := by
  unfold Repository.update
  split
  case isTrue hs =>
    by_cases hij : j = item_id
    · rw [hij] at h; rw [h] at hs; exact absurd hs (by simp)
    · simpa using (dictLookup_insert_ne r.items item_id j item hij).trans h
  case isFalse => exact h

theorem Repository.delete_lookup_none {α : Type} (r : Repository α) (item_id j : Nat)
    (h : dictLookup r.items j = none) :
    dictLookup (r.delete item_id).1.items j = none := by
  unfold Repository.delete
  split
  · exact dictLookup_delete_none r.items item_id j h
  · exact h

theorem TagRepository.run_issued_facts (ops : List TagOp) :
    ∀ r : Repository Tag,
      List.Chain' (fun a b => a < b) (TagRepository.run r ops).2 ∧
      (∀ i ∈ (TagRepository.run r ops).2,
        r.next_id ≤ i ∧ i < (TagRepository.run r ops).1.next_id) ∧
      r.next_id ≤ (TagRepository.run r ops).1.next_id := by
  induction ops with
  | nil =>
    intro r
    exact ⟨List.chain'_nil, by simp [TagRepository.run], le_refl _⟩
  | cons op ops ih =>
    intro r
    cases op with
    | create name now =>
      have hnext := TagRepository.create_fst_next_id r name now
      obtain ⟨ihc, ihb, ihm⟩ := ih (TagRepository.create r name now).1
      rw [hnext] at ihb ihm
      have hrun : TagRepository.run r (TagOp.create name now :: ops) =
          ((TagRepository.run (TagRepository.create r name now).1 ops).1,
           r.next_id :: (TagRepository.run (TagRepository.create r name now).1 ops).2) := rfl
      rw [hrun]
      dsimp only
      refine ⟨?_, ?_, ?_⟩
      · refine List.chain'_cons'.2 ⟨?_, ihc⟩
        intro y hy
        have hmem := List.mem_of_mem_head? hy
        have := (ihb y hmem).1
        omega
      · intro i hi
        rcases List.mem_cons.1 hi with hi | hi
        · subst hi
          exact ⟨le_refl _, by omega⟩
        · have := ihb i hi
          exact ⟨by omega, this.2⟩
      · omega
    | update item_id t =>
      have hnext := Repository.update_fst_next_id r item_id t
      obtain ⟨ihc, ihb, ihm⟩ := ih (r.update item_id t).1
      rw [hnext] at ihb ihm
      have hrun : TagRepository.run r (TagOp.update item_id t :: ops) =
          TagRepository.run (r.update item_id t).1 ops := rfl
      rw [hrun]
      exact ⟨ihc, ihb, ihm⟩
    | delete item_id =>
      have hnext := Repository.delete_fst_next_id r item_id
      obtain ⟨ihc, ihb, ihm⟩ := ih (r.delete item_id).1
      rw [hnext] at ihb ihm
      have hrun : TagRepository.run r (TagOp.delete item_id :: ops) =
          TagRepository.run (r.delete item_id).1 ops := rfl
      rw [hrun]
      exact ⟨ihc, ihb, ihm⟩

theorem TagRepository.run_lookup_none (ops : List TagOp) :
    ∀ (r : Repository Tag) (j : Nat),
      dictLookup r.items j = none → j ∉ (TagRepository.run r ops).2 →
      dictLookup (TagRepository.run r ops).1.items j = none := by
  induction ops with
  | nil => intro r j h _; exact h
  | cons op ops ih =>
    intro r j h hj
    cases op with
    | create name now =>
      have hj1 : j ≠ r.next_id := by
        intro hEq
        exact hj (by rw [hEq]; exact List.mem_append_left _ (List.mem_singleton_self _))
      have hj2 : j ∉ (TagRepository.run (TagRepository.create r name now).1 ops).2 := by
        intro hmem
        exact hj (List.mem_append_right _ hmem)
      refine ih (TagRepository.create r name now).1 j ?_ hj2
      rcases TagRepository.create_fst_items r name now with hit | hit
      · rw [hit]; exact h
      · rw [hit]
        exact (dictLookup_insert_ne r.items r.next_id j _ hj1).trans h
    | update item_id t =>
      have hj2 : j ∉ (TagRepository.run (r.update item_id t).1 ops).2 := by
        intro hmem; exact hj (by simpa using hmem)
      exact ih _ j (Repository.update_lookup_none r item_id j t h) hj2
    | delete item_id =>
      have hj2 : j ∉ (TagRepository.run (r.delete item_id).1 ops).2 := by
        intro hmem; exact hj (by simpa using hmem)
      exact ih _ j (Repository.delete_lookup_none r item_id j h) hj2

theorem Notification.mark_fold (times : List Nat) :
    ∀ m : Notification, m.status = NotificationStatus.read →
      (List.foldl Notification.mark_as_read m times).status = NotificationStatus.read ∧
      (List.foldl Notification.mark_as_read m times).updated_at =
        times.getLastD m.updated_at := by
  induction times with
  | nil => intro m hm; exact ⟨hm, rfl⟩
  | cons t ts ih =>
    intro m _
    have h := ih (m.mark_as_read t) rfl
    rw [List.foldl_cons, List.getLastD_cons]
    exact ⟨h.1, h.2⟩

theorem Project.applyMemberOp_owner (p : Project) (op : ProjectMemberOp) :
    (p.applyMemberOp op).owner_id = p.owner_id := by
  cases op with
  | add user_id now =>
    show (p.add_member user_id now).1.owner_id = p.owner_id
    unfold Project.add_member
    split
    · rfl
    · rfl
  | remove user_id now =>
    show (p.remove_member user_id now).1.owner_id = p.owner_id
    unfold Project.remove_member
    split
    · rfl
    · rfl

theorem Project.applyMemberOp_owner_mem (p : Project) (op : ProjectMemberOp)
    (h : p.owner_id ∈ p.members) : p.owner_id ∈ (p.applyMemberOp op).members := by
  cases op with
  | add user_id now =>
    show p.owner_id ∈ (p.add_member user_id now).1.members
    unfold Project.add_member
    split
    · exact List.mem_append_left _ h
    · exact h
  | remove user_id now =>
    show p.owner_id ∈ (p.remove_member user_id now).1.members
    unfold Project.remove_member
    split
    case isTrue hc =>
      exact (List.mem_erase_of_ne (fun hEq => hc.1 hEq.symm)).2 h
    case isFalse => exact h

theorem Project.owner_mem_fold (ops : List ProjectMemberOp) :
    ∀ p : Project, p.owner_id ∈ p.members →
      p.owner_id ∈ (ops.foldl Project.applyMemberOp p).members := by
  induction ops with
  | nil => intro p h; exact h
  | cons op ops ih =>
    intro p h
    rw [List.foldl_cons, ← Project.applyMemberOp_owner p op]
    refine ih (p.applyMemberOp op) ?_
    rw [Project.applyMemberOp_owner]
    exact Project.applyMemberOp_owner_mem p op h

theorem Tag.usage_fold_nonneg (ops : List TagUsageOp) :
    ∀ t : Tag, 0 ≤ t.usage_count →
      0 ≤ (ops.foldl Tag.applyUsageOp t).usage_count := by
  induction ops with
  | nil => intro t h; exact h
  | cons op ops ih =>
    intro t h
    rw [List.foldl_cons]
    refine ih (t.applyUsageOp op) ?_
    cases op with
    | inc now =>
      show 0 ≤ (t.increment_usage now).usage_count
      unfold Tag.increment_usage
      dsimp only
      omega
    | dec now =>
      show 0 ≤ (t.decrement_usage now).usage_count
      unfold Tag.decrement_usage
      split
      case isTrue hpos => dsimp only; omega
      case isFalse => exact h

theorem TagRepository.create_invalid (r : Repository Tag) (name : String) (now : Nat)
    (hv : (Tag.init r.next_id name none now).validate.1 = false) :
    TagRepository.create r name now =
      ({ items := r.items, next_id := r.next_id + 1 },
       Except.error (ValidationError ((Tag.init r.next_id name none now).validate.2.getD ""))) := by
  unfold TagRepository.create
  dsimp only [Repository.get_next_id]
  rw [if_pos hv]

theorem TagRepository.create_dup (r : Repository Tag) (name : String) (now : Nat)
    (hv : (Tag.init r.next_id name none now).validate.1 = true)
    (hd : r.items.any (fun q => pyLower q.2.name == pyLower name) = true) :
    TagRepository.create r name now =
      ({ items := r.items, next_id := r.next_id + 1 },
       Except.error (ValidationError ("Tag " ++ quoted name ++ " already exists"))) := by
  unfold TagRepository.create
  dsimp only [Repository.get_next_id]
  rw [if_neg (by simp [hv]), if_pos hd]

theorem CategoryRepository.category_create_invalid (r : Repository Category)
    (name color description : String) (now : Nat)
    (hv : (Category.init r.next_id name color description none now).validate.1 = false) :
    CategoryRepository.create r name color description now =
      ({ items := r.items, next_id := r.next_id + 1 },
       Except.error (ValidationError
         ((Category.init r.next_id name color description none now).validate.2.getD ""))) := by
  unfold CategoryRepository.create
  dsimp only [Repository.get_next_id]
  rw [if_pos hv]

theorem CategoryRepository.category_create_dup (r : Repository Category)
    (name color description : String) (now : Nat)
    (hv : (Category.init r.next_id name color description none now).validate.1 = true)
    (hd : r.items.any (fun q => pyLower q.2.name == pyLower name) = true) :
    CategoryRepository.create r name color description now =
      ({ items := r.items, next_id := r.next_id + 1 },
       Except.error (ValidationError ("Category " ++ quoted name ++ " already exists"))) := by
  unfold CategoryRepository.create
  dsimp only [Repository.get_next_id]
  rw [if_neg (by simp [hv]), if_pos hd]

/-! ### Claim theorems -/

/-- Claim C1: the claim says a validly constructed task is inserted into the backing
map keyed by the allocated id. The code contradicts its own docstring and unit
tests: `TaskRepository.create` stores via `self._items[task.task_id]`, but
`Task` objects have no attribute `task_id`, so every create whose task passes
validation raises `AttributeError` and stores nothing. Evaluated here at the
failing input `create("New Task", "Description")` on a fresh repository. -/
theorem c1_task_create_raises_attribute_error :
    TaskRepository.create Repository.init "New Task" "Description" 0
      TaskStatus.todo TaskPriority.medium 0 =
    ({ items := [], next_id := 2 },
     Except.error (PyError.attributeError "Task object has no attribute task_id")) ∧
    (TaskRepository.create Repository.init "New Task" "Description" 0
      TaskStatus.todo TaskPriority.medium 0).1.count = 0 :=
  ⟨rfl, rfl⟩

/-- Claim C2, counterexample: creating Tag "urgent" then Tag "URGENT" does make the
second call fail with `count() == 1`, but the failure is a `ValidationError`
whose `error_code` is VALIDATION_ERROR, not the CONFLICT code the claim
requires. -/
theorem c2_duplicate_error_code_counterexample :
    (TagRepository.create (TagRepository.create Repository.init "urgent" 0).1
      "URGENT" 1).2 =
      Except.error (ValidationError ("Tag " ++ quoted "URGENT" ++ " already exists")) ∧
    (ValidationError ("Tag " ++ quoted "URGENT" ++ " already exists")).error_code =
      "VALIDATION_ERROR" ∧
    (ValidationError ("Tag " ++ quoted "URGENT" ++ " already exists")).error_code ≠
      "CONFLICT" ∧
    (TagRepository.create (TagRepository.create Repository.init "urgent" 0).1
      "URGENT" 1).1.count = 1 :=
  ⟨rfl, rfl, by decide, rfl⟩

/-- Claim C2, amended: for every TagRepository (and CategoryRepository) holding an
entry whose name equals N up to letter case, `create` with name N fails — with
a `ValidationError` (error_code VALIDATION_ERROR, not CONFLICT) — regardless of
which casing was created first, and `count()` is unchanged. -/
theorem c2_case_insensitive_duplicate_fails (rt : Repository Tag)
    (rc : Repository Category) (tname cname color description : String) (now : Nat)
    (ht : rt.items.any (fun q => pyLower q.2.name == pyLower tname) = true)
    (hc : rc.items.any (fun q => pyLower q.2.name == pyLower cname) = true) :
    (∃ e, (TagRepository.create rt tname now).2 = Except.error e ∧
      e.error_code = "VALIDATION_ERROR") ∧
    (TagRepository.create rt tname now).1.count = rt.count ∧
    (∃ e, (CategoryRepository.create rc cname color description now).2 =
      Except.error e ∧ e.error_code = "VALIDATION_ERROR") ∧
    (CategoryRepository.create rc cname color description now).1.count = rc.count := by
  refine ⟨?_, ?_, ?_, ?_⟩
  · by_cases hv : (Tag.init rt.next_id tname none now).validate.1 = false
    · rw [TagRepository.create_invalid rt tname now hv]
      exact ⟨_, rfl, rfl⟩
    · rw [TagRepository.create_dup rt tname now (Bool.not_eq_false _ ▸ hv) ht]
      exact ⟨_, rfl, rfl⟩
  · by_cases hv : (Tag.init rt.next_id tname none now).validate.1 = false
    · rw [TagRepository.create_invalid rt tname now hv]; rfl
    · rw [TagRepository.create_dup rt tname now (Bool.not_eq_false _ ▸ hv) ht]; rfl
  · by_cases hv : (Category.init rc.next_id cname color description none now).validate.1 = false
    · rw [CategoryRepository.category_create_invalid rc cname color description now hv]
      exact ⟨_, rfl, rfl⟩
    · rw [CategoryRepository.category_create_dup rc cname color description now
        (Bool.not_eq_false _ ▸ hv) hc]
      exact ⟨_, rfl, rfl⟩
  · by_cases hv : (Category.init rc.next_id cname color description none now).validate.1 = false
    · rw [CategoryRepository.category_create_invalid rc cname color description now hv]; rfl
    · rw [CategoryRepository.category_create_dup rc cname color description now
        (Bool.not_eq_false _ ▸ hv) hc]; rfl

/-- Claim C2, witness: the amended theorem applied to the concrete "urgent"/"URGENT"
scenario of the spec (and "Work"/"WORK" for categories). -/
theorem c2_case_insensitive_duplicate_fails_witness :
    (∃ e, (TagRepository.create (TagRepository.create Repository.init "urgent" 0).1
      "URGENT" 1).2 = Except.error e ∧ e.error_code = "VALIDATION_ERROR") ∧
    (TagRepository.create (TagRepository.create Repository.init "urgent" 0).1
      "URGENT" 1).1.count =
      (TagRepository.create Repository.init "urgent" 0).1.count ∧
    (∃ e, (CategoryRepository.create
      (CategoryRepository.create Repository.init "Work" "#00ff00" "" 0).1
      "WORK" "#00ff00" "" 1).2 = Except.error e ∧ e.error_code = "VALIDATION_ERROR") ∧
    (CategoryRepository.create
      (CategoryRepository.create Repository.init "Work" "#00ff00" "" 0).1
      "WORK" "#00ff00" "" 1).1.count =
      (CategoryRepository.create Repository.init "Work" "#00ff00" "" 0).1.count :=
  c2_case_insensitive_duplicate_fails
    (TagRepository.create Repository.init "urgent" 0).1
    (CategoryRepository.create Repository.init "Work" "#00ff00" "" 0).1
    "URGENT" "WORK" "#00ff00" "" 1 (by decide) (by decide)

/-- Claim C3: over every sequence of repository operations (creates, updates,
deletes) and at every point (every prefix), the ids issued by `get_next_id`
are strictly increasing, never repeat (even across deletes), and the
`_next_id` counter strictly exceeds every id ever issued. -/
theorem c3_issued_ids_strictly_increasing (ops : List TagOp) (n : Nat) :
    List.Chain' (fun a b => a < b)
      (TagRepository.run Repository.init (ops.take n)).2 ∧
    (TagRepository.run Repository.init (ops.take n)).2.Nodup ∧
    ∀ i ∈ (TagRepository.run Repository.init (ops.take n)).2,
      i < (TagRepository.run Repository.init (ops.take n)).1.next_id := by
  obtain ⟨hc, hb, _⟩ := TagRepository.run_issued_facts (ops.take n) Repository.init
  refine ⟨hc, ?_, fun i hi => (hb i hi).2⟩
  exact (List.chain'_iff_pairwise.1 hc).nodup

/-- Claim C4: `is_overdue` is true iff a due date exists, is strictly before "now",
and the status is not done; and after `mark_as_done`, `is_overdue` is false at
every later evaluation time. -/
theorem c4_is_overdue_iff_and_done_clears (t : App.Task) (now now2 now3 : Nat) :
    (t.is_overdue now = true ↔
      (∃ d, t.due_date = some d ∧ d < now) ∧ t.status ≠ TaskStatus.done) ∧
    (t.mark_as_done now2).is_overdue now3 = false := by
  constructor
  · unfold App.Task.is_overdue
    cases hd : t.due_date with
    | none => simp
    | some d =>
      by_cases hs : t.status = TaskStatus.done
      · simp [hs]
      · simp only [hs, if_pos, ne_eq, not_false_eq_true, and_true, if_true]
        constructor
        · intro h
          exact ⟨d, rfl, by simpa using h⟩
        · rintro ⟨d2, hd2, hlt⟩
          obtain rfl : d = d2 := by injection hd2
          simpa using hlt
  · unfold App.Task.mark_as_done App.Task.is_overdue
    dsimp only
    cases t.due_date <;> simp

/-- Claim C5, counterexample: the claim says every title of 1 to 255 characters
passes `validate()`, but a whitespace-only title of length 1 fails (the
stripped length is 0), with the "Title is required" message. -/
theorem c5_whitespace_title_counterexample :
    (App.Task.init 1 " " "" 0 TaskStatus.todo TaskPriority.medium
      none none [] none 0).validate = (false, some "Title is required") ∧
    (" " : String).length = 1 :=
  ⟨rfl, rfl⟩

/-- Claim C5, amended: `Task.validate()` fails for a title of 0 characters; it
passes for every title of 1 to 255 characters that contains at least one
non-whitespace character (whitespace-only titles fail), provided the
description is within 2000 characters; it fails for a title of 256 characters;
and creating a Task with title "" raises a validation failure whose message is
"Title is required", stores nothing, and leaves `count()` unchanged. -/
theorem c5_title_validation_amended (title descr t256 : String) (pid : Nat)
    (st : TaskStatus) (pr : TaskPriority) (dd : Option Nat) (aid : Option Int)
    (tgs : List String) (ca : Option Nat) (now : Nat) (r : Repository App.Task)
    (h1 : 1 ≤ title.length) (h2 : title.length ≤ 255)
    (h3 : (pyStrip title).length ≠ 0) (h4 : descr.length ≤ 2000)
    (h256 : t256.length = 256) :
    (App.Task.init 1 title descr pid st pr dd aid tgs ca now).validate =
      (true, none) ∧
    (App.Task.init 1 "" descr pid st pr dd aid tgs ca now).validate =
      (false, some "Title is required") ∧
    (App.Task.init 1 t256 descr pid st pr dd aid tgs ca now).validate.1 = false ∧
    TaskRepository.create r "" descr pid st pr now =
      ({ items := r.items, next_id := r.next_id + 1 },
       Except.error (PyError.appError (ValidationError "Title is required"))) ∧
    (TaskRepository.create r "" descr pid st pr now).1.count = r.count := by
  have hc1 : ¬((title == "" || (pyStrip title).length == 0) = true) := by
    simp only [Bool.or_eq_true, beq_iff_eq]
    rintro (rfl | hz)
    · simp at h1
    · exact h3 hz
  refine ⟨?_, rfl, ?_, rfl, rfl⟩
  · unfold App.Task.validate
    dsimp only [App.Task.init]
    rw [if_neg hc1, if_neg (by omega), if_neg (by omega)]
  · unfold App.Task.validate
    dsimp only [App.Task.init]
    by_cases hc : (t256 == "" || (pyStrip t256).length == 0) = true
    · rw [if_pos hc]
    · rw [if_neg hc, if_pos (by omega)]

set_option maxRecDepth 8192 in
/-- Claim C5, witness: the amended theorem applied at title "a", empty description, a
256-character title, and a fresh repository. -/
theorem c5_title_validation_amended_witness :
    (App.Task.init 1 "a" "" 0 TaskStatus.todo TaskPriority.medium
      none none [] none 0).validate = (true, none) ∧
    (App.Task.init 1 "" "" 0 TaskStatus.todo TaskPriority.medium
      none none [] none 0).validate = (false, some "Title is required") ∧
    (App.Task.init 1 (String.mk (List.replicate 256 (Char.ofNat 97))) "" 0
      TaskStatus.todo TaskPriority.medium none none [] none 0).validate.1 = false ∧
    TaskRepository.create Repository.init "" "" 0 TaskStatus.todo
      TaskPriority.medium 0 =
      ({ items := [], next_id := 2 },
       Except.error (PyError.appError (ValidationError "Title is required"))) ∧
    (TaskRepository.create Repository.init "" "" 0 TaskStatus.todo
      TaskPriority.medium 0).1.count = 0 :=
  c5_title_validation_amended "a" "" (String.mk (List.replicate 256 (Char.ofNat 97)))
    0 TaskStatus.todo TaskPriority.medium none none [] none 0 Repository.init
    (by decide) (by decide) (by decide) (by decide) (by decide)

/-- Claim C6: for every repository state whose map does not contain an id,
`get_or_raise(id, label)` fails with a not-found error whose `error_code` is
NOT_FOUND and whose `details.resource_type` is the caller-supplied label,
while `get(id)` returns an absent value without failing; and after any
sequence of operations from a fresh repository, an id that was never issued is
indeed absent from the map. -/
theorem c6_get_or_raise_never_issued {α : Type} (r : Repository α)
    (item_id : Nat) (label : String) (ops : List TagOp) (jid : Nat)
    (h1 : r.get item_id = none)
    (h2 : jid ∉ (TagRepository.run Repository.init ops).2) :
    r.get_or_raise item_id label =
      Except.error (NotFoundError (label ++ " not found") label) ∧
    (NotFoundError (label ++ " not found") label).error_code = "NOT_FOUND" ∧
    (NotFoundError (label ++ " not found") label).details =
      [("resource_type", label)] ∧
    (TagRepository.run Repository.init ops).1.get jid = none := by
  refine ⟨?_, rfl, rfl, ?_⟩
  · unfold Repository.get_or_raise
    rw [h1]
  · exact TagRepository.run_lookup_none ops Repository.init jid rfl h2

/-- Claim C6, witness: a fresh Tag repository after one create, queried at the
never-issued id 5 with label "Task". -/
theorem c6_get_or_raise_never_issued_witness :
    (Repository.init : Repository Tag).get_or_raise 5 "Task" =
      Except.error (NotFoundError ("Task" ++ " not found") "Task") ∧
    (NotFoundError ("Task" ++ " not found") "Task").error_code = "NOT_FOUND" ∧
    (NotFoundError ("Task" ++ " not found") "Task").details =
      [("resource_type", "Task")] ∧
    (TagRepository.run Repository.init [TagOp.create "urgent" 0]).1.get 5 = none :=
  c6_get_or_raise_never_issued (Repository.init : Repository Tag) 5 "Task"
    [TagOp.create "urgent" 0] 5 rfl (by decide)

/-- Claim C7: every call to `mark_as_read` leaves the status at read — a first call
followed by any number of further calls still yields status read — while each
call, including calls made when the status is already read, sets `updated_at`
to that call's current time (the time of the last call). -/
theorem c7_mark_as_read_idempotent_status_fresh_timestamp (n : Notification)
    (now : Nat) (times : List Nat) :
    (n.mark_as_read now).status = NotificationStatus.read ∧
    (n.mark_as_read now).updated_at = now ∧
    (List.foldl Notification.mark_as_read (n.mark_as_read now) times).status =
      NotificationStatus.read ∧
    (List.foldl Notification.mark_as_read (n.mark_as_read now) times).updated_at =
      times.getLastD now := by
  have h := Notification.mark_fold times (n.mark_as_read now) rfl
  exact ⟨rfl, rfl, h.1, h.2⟩

/-- Claim C8: in the Tag and Category repository `create`, validation runs before
the uniqueness scan and both run before insertion: when `validate()` fails the
call signals a validation failure carrying the returned reason (regardless of
any duplicate) and the backing map is unchanged, so the invalid entity is
never observable via `get_all`; when validation passes but the
case-insensitive scan matches, the duplicate is likewise never stored. -/
theorem c8_create_validation_precedes_uniqueness (rt : Repository Tag)
    (rc : Repository Category) (tname cname color description : String)
    (now : Nat) :
    ((Tag.init rt.next_id tname none now).validate.1 = false →
      TagRepository.create rt tname now =
        ({ items := rt.items, next_id := rt.next_id + 1 },
         Except.error (ValidationError
           ((Tag.init rt.next_id tname none now).validate.2.getD ""))) ∧
      (TagRepository.create rt tname now).1.get_all = rt.get_all) ∧
    ((Tag.init rt.next_id tname none now).validate.1 = true →
      rt.items.any (fun q => pyLower q.2.name == pyLower tname) = true →
      TagRepository.create rt tname now =
        ({ items := rt.items, next_id := rt.next_id + 1 },
         Except.error (ValidationError
           ("Tag " ++ quoted tname ++ " already exists"))) ∧
      (TagRepository.create rt tname now).1.get_all = rt.get_all) ∧
    ((Category.init rc.next_id cname color description none now).validate.1 = false →
      CategoryRepository.create rc cname color description now =
        ({ items := rc.items, next_id := rc.next_id + 1 },
         Except.error (ValidationError
           ((Category.init rc.next_id cname color description none now).validate.2.getD ""))) ∧
      (CategoryRepository.create rc cname color description now).1.get_all = rc.get_all) ∧
    ((Category.init rc.next_id cname color description none now).validate.1 = true →
      rc.items.any (fun q => pyLower q.2.name == pyLower cname) = true →
      CategoryRepository.create rc cname color description now =
        ({ items := rc.items, next_id := rc.next_id + 1 },
         Except.error (ValidationError
           ("Category " ++ quoted cname ++ " already exists"))) ∧
      (CategoryRepository.create rc cname color description now).1.get_all = rc.get_all) := by
  refine ⟨fun hv => ?_, fun hv hd => ?_, fun hv => ?_, fun hv hd => ?_⟩
  · rw [TagRepository.create_invalid rt tname now hv]
    exact ⟨rfl, rfl⟩
  · rw [TagRepository.create_dup rt tname now hv hd]
    exact ⟨rfl, rfl⟩
  · rw [CategoryRepository.category_create_invalid rc cname color description now hv]
    exact ⟨rfl, rfl⟩
  · rw [CategoryRepository.category_create_dup rc cname color description now hv hd]
    exact ⟨rfl, rfl⟩

/-- Claim C8, witness: the theorem applied at a non-alphanumeric tag name and a
duplicate tag name, and at a malformed category color and a duplicate category
name, each on concrete repositories. -/
theorem c8_create_validation_precedes_uniqueness_witness :
    (TagRepository.create Repository.init "bad tag" 0 =
      ({ items := [], next_id := 2 },
       Except.error (ValidationError "Tag name must be alphanumeric")) ∧
     (TagRepository.create Repository.init "bad tag" 0).1.get_all =
       (Repository.init : Repository Tag).get_all) ∧
    (TagRepository.create (TagRepository.create Repository.init "urgent" 0).1
      "URGENT" 1 =
      ({ items := (TagRepository.create Repository.init "urgent" 0).1.items,
         next_id := 3 },
       Except.error (ValidationError ("Tag " ++ quoted "URGENT" ++ " already exists"))) ∧
     (TagRepository.create (TagRepository.create Repository.init "urgent" 0).1
       "URGENT" 1).1.get_all =
       (TagRepository.create Repository.init "urgent" 0).1.get_all) ∧
    (CategoryRepository.create Repository.init "Work" "red" "" 0 =
      ({ items := [], next_id := 2 },
       Except.error (ValidationError "Invalid hex color format")) ∧
     (CategoryRepository.create Repository.init "Work" "red" "" 0).1.get_all =
       (Repository.init : Repository Category).get_all) ∧
    (CategoryRepository.create
      (CategoryRepository.create Repository.init "Work" "#00ff00" "" 0).1
      "WORK" "#00ff00" "" 1 =
      ({ items := (CategoryRepository.create Repository.init "Work" "#00ff00" "" 0).1.items,
         next_id := 3 },
       Except.error (ValidationError ("Category " ++ quoted "WORK" ++ " already exists"))) ∧
     (CategoryRepository.create
       (CategoryRepository.create Repository.init "Work" "#00ff00" "" 0).1
       "WORK" "#00ff00" "" 1).1.get_all =
       (CategoryRepository.create Repository.init "Work" "#00ff00" "" 0).1.get_all) :=
  ⟨(c8_create_validation_precedes_uniqueness Repository.init Repository.init
      "bad tag" "x" "#00ff00" "" 0).1 (by decide),
   (c8_create_validation_precedes_uniqueness
      (TagRepository.create Repository.init "urgent" 0).1 Repository.init
      "URGENT" "x" "#00ff00" "" 1).2.1 (by decide) (by decide),
   (c8_create_validation_precedes_uniqueness Repository.init Repository.init
      "tag1" "Work" "red" "" 0).2.2.1 (by decide),
   (c8_create_validation_precedes_uniqueness Repository.init
      (CategoryRepository.create Repository.init "Work" "#00ff00" "" 0).1
      "tag1" "WORK" "#00ff00" "" 1).2.2.2 (by decide) (by decide)⟩

/-- Claim C9, counterexample: a Project constructed with the default owner_id 0 has
an empty member list — the owner is not a member from construction, because
`__init__` computes `[owner_id] if owner_id else []` and 0 is falsy. -/
theorem c9_zero_owner_counterexample :
    (Project.init 1 "P" "" 0 ProjectStatus.planning none 0).members = [] ∧
    (Project.init 1 "P" "" 0 ProjectStatus.planning none 0).owner_id ∉
      (Project.init 1 "P" "" 0 ProjectStatus.planning none 0).members :=
  ⟨rfl, by decide⟩

/-- Claim C9, amended: for every Project with a nonzero owner_id, the owner is a
member from construction onward (through any sequence of add/remove member
operations); `add_member` returns false without modifying the project when the
user is already a member, and `remove_member` returns false without modifying
the project when the user is the owner. -/
theorem c9_owner_membership_amended (pid : Nat) (name description : String)
    (owner : Int) (st : ProjectStatus) (ca : Option Nat) (now t1 t2 : Nat)
    (ops : List ProjectMemberOp) (p : Project) (u : Int)
    (how : owner ≠ 0) (hmem : u ∈ p.members) :
    owner ∈ (ops.foldl Project.applyMemberOp
      (Project.init pid name description owner st ca now)).members ∧
    p.add_member u t1 = (p, false) ∧
    p.remove_member p.owner_id t2 = (p, false) := by
  refine ⟨?_, ?_, ?_⟩
  · have hm : (Project.init pid name description owner st ca now).owner_id ∈
        (Project.init pid name description owner st ca now).members := by
      show owner ∈ (if owner ≠ 0 then [owner] else [])
      rw [if_pos how]
      exact List.mem_singleton_self owner
    exact Project.owner_mem_fold ops _ hm
  · unfold Project.add_member
    rw [if_neg (fun hn => hn hmem)]
  · unfold Project.remove_member
    rw [if_neg (fun hcon => hcon.1 rfl)]

/-- Claim C9, witness: an owner with id 7, a member add/remove history, a repeated
add of the owner, and an attempted removal of the owner. -/
theorem c9_owner_membership_amended_witness :
    (7 : Int) ∈ ([ProjectMemberOp.add 3 1, ProjectMemberOp.remove 3 2].foldl
      Project.applyMemberOp
      (Project.init 1 "P" "" 7 ProjectStatus.planning none 0)).members ∧
    (Project.init 1 "P" "" 7 ProjectStatus.planning none 0).add_member 7 5 =
      (Project.init 1 "P" "" 7 ProjectStatus.planning none 0, false) ∧
    (Project.init 1 "P" "" 7 ProjectStatus.planning none 0).remove_member
      (Project.init 1 "P" "" 7 ProjectStatus.planning none 0).owner_id 6 =
      (Project.init 1 "P" "" 7 ProjectStatus.planning none 0, false) :=
  c9_owner_membership_amended 1 "P" "" 7 ProjectStatus.planning none 0 5 6
    [ProjectMemberOp.add 3 1, ProjectMemberOp.remove 3 2]
    (Project.init 1 "P" "" 7 ProjectStatus.planning none 0) 7
    (by decide) (by decide)

/-- Claim C10: a Tag's usage_count starts at 0, `increment_usage` increases it by
one, `decrement_usage` at 0 leaves the tag (including `updated_at`) entirely
unchanged, and every interleaving of increments and decrements from a
nonnegative count keeps the count nonnegative. -/
theorem c10_usage_count_nonnegative (tag_id : Nat) (nm : String)
    (ca : Option Nat) (now t1 t2 : Nat) (tg tz : Tag) (ops : List TagUsageOp)
    (h0 : 0 ≤ tg.usage_count) (hz : tz.usage_count = 0) :
    (Tag.init tag_id nm ca now).usage_count = 0 ∧
    (tg.increment_usage t1).usage_count = tg.usage_count + 1 ∧
    tz.decrement_usage t2 = tz ∧
    0 ≤ (ops.foldl Tag.applyUsageOp tg).usage_count := by
  refine ⟨rfl, rfl, ?_, Tag.usage_fold_nonneg ops tg h0⟩
  unfold Tag.decrement_usage
  rw [if_neg (by omega)]

/-- Claim C10, witness: a fresh tag, one increment followed by two decrements. -/
theorem c10_usage_count_nonnegative_witness :
    (Tag.init 1 "x" none 0).usage_count = 0 ∧
    ((Tag.init 1 "x" none 0).increment_usage 1).usage_count =
      (Tag.init 1 "x" none 0).usage_count + 1 ∧
    (Tag.init 1 "x" none 0).decrement_usage 2 = Tag.init 1 "x" none 0 ∧
    0 ≤ ([TagUsageOp.inc 1, TagUsageOp.dec 2, TagUsageOp.dec 3].foldl
      Tag.applyUsageOp (Tag.init 1 "x" none 0)).usage_count :=
  c10_usage_count_nonnegative 1 "x" none 0 1 2 (Tag.init 1 "x" none 0)
    (Tag.init 1 "x" none 0) [TagUsageOp.inc 1, TagUsageOp.dec 2, TagUsageOp.dec 3]
    (by decide) (by decide)
